import Mathlib



/-!
# Verification of the HVAC cost-comparison calculator (script.js)

Shallow embedding of the core of `src/temp_commit/script.js`:
the JS number semantics needed by the cost model (IEEE special values
NaN / Infinity over exact rationals), the HVAC cost model
(`calculateSystemCosts`, `calculateHVACCosts`, `calculateHeatPumpEfficiency`,
`computeAutoCrossoverTemperature`), the geographic distance utilities
(`calculateDistance`, `haversine`, `nearestStation`,
`findNearestNoaaStation`, `findNearestResnetStation`), the dataset merge
operations (`tryLoadExternalCountyJson`, `tryLoadExternalCountyCsv`,
`tryMergeNoaaNormalsHddCdd`) and the climate-record resolver
(`lookupClimateData` with its stage-1 in-memory short circuit and its
network fallback chain).

JS numbers are modelled as exact rationals extended with the IEEE special
values `Infinity`, `-Infinity` and `NaN`; a JS value that may be `undefined`
or non-finite where only its finiteness matters is modelled as `Option ℚ`
(`none` = absent / non-finite).  Network collaborators and file contents
are parameters (oracles) of the resolver; transcendental kernels
(`Math.sin`, `Math.cos`, `Math.sqrt`, `Math.atan2`, `Math.PI`) are
parameters of the distance utilities, since only NaN-propagation and
guard structure are at stake in the claims about them.
-/

/-- A JavaScript number: an exact rational, or one of the IEEE special
values `Infinity`, `-Infinity`, `NaN`. -/
inductive JSNum where
  | num : ℚ → JSNum
  | inf : JSNum
  | ninf : JSNum
  | nan : JSNum
deriving DecidableEq, Repr

namespace JSNum

/-- JS `Number.isFinite`. -/
def isFinite : JSNum → Bool
  | num _ => true
  | _ => false

/-- JS addition with IEEE special values. -/
def jadd : JSNum → JSNum → JSNum
  | num a, num b => num (a + b)
  | num _, inf => inf
  | num _, ninf => ninf
  | inf, num _ => inf
  | ninf, num _ => ninf
  | inf, inf => inf
  | ninf, ninf => ninf
  | inf, ninf => nan
  | ninf, inf => nan
  | nan, _ => nan
  | _, nan => nan

/-- JS negation. -/
def jneg : JSNum → JSNum
  | num a => num (-a)
  | inf => ninf
  | ninf => inf
  | nan => nan

/-- JS subtraction. -/
def jsub (a b : JSNum) : JSNum := jadd a (jneg b)

/-- JS multiplication with IEEE special values (`Infinity * 0 = NaN`). -/
def jmul : JSNum → JSNum → JSNum
  | num a, num b => num (a * b)
  | num a, inf => if a > 0 then inf else if a < 0 then ninf else nan
  | num a, ninf => if a > 0 then ninf else if a < 0 then inf else nan
  | inf, num b => if b > 0 then inf else if b < 0 then ninf else nan
  | ninf, num b => if b > 0 then ninf else if b < 0 then inf else nan
  | inf, inf => inf
  | ninf, ninf => inf
  | inf, ninf => ninf
  | ninf, inf => ninf
  | nan, _ => nan
  | _, nan => nan

/-- JS division with IEEE special values (`x / 0 = ±Infinity` for `x ≠ 0`,
`0 / 0 = NaN`, `finite / ±Infinity = 0`, `±Infinity / ±Infinity = NaN`). -/
def jdiv : JSNum → JSNum → JSNum
  | num a, num b =>
      if b = 0 then (if a > 0 then inf else if a < 0 then ninf else nan)
      else num (a / b)
  | num _, inf => num 0
  | num _, ninf => num 0
  | inf, num b => if b < 0 then ninf else inf
  | ninf, num b => if b < 0 then inf else ninf
  | inf, inf => nan
  | inf, ninf => nan
  | ninf, inf => nan
  | ninf, ninf => nan
  | nan, _ => nan
  | _, nan => nan

/-- JS `<` (any comparison with NaN is false). -/
def jlt : JSNum → JSNum → Bool
  | num a, num b => a < b
  | num _, inf => true
  | ninf, num _ => true
  | ninf, inf => true
  | _, _ => false

/-- JS `>`. -/
def jgt (a b : JSNum) : Bool := jlt b a

/-- JS `<=` (false whenever an operand is NaN). -/
def jle : JSNum → JSNum → Bool
  | num a, num b => a ≤ b
  | num _, inf => true
  | inf, inf => true
  | ninf, num _ => true
  | ninf, inf => true
  | ninf, ninf => true
  | _, _ => false

/-- JS `Math.round` on a rational: half-way cases round toward `+∞`
(`Math.round x = ⌊x + 1/2⌋`). -/
def roundQ (q : ℚ) : ℚ := (⌊q + 1/2⌋ : ℤ)

/-- JS `Math.round` (`Math.round Infinity = Infinity`, `Math.round NaN = NaN`). -/
def jround : JSNum → JSNum
  | num q => num (roundQ q)
  | inf => inf
  | ninf => ninf
  | nan => nan

end JSNum

open JSNum

/-- Convert an optional finite value to a JS number (`none` stands for
`undefined` / non-finite, which enters arithmetic as NaN). -/
def jsOfOpt (o : Option ℚ) : JSNum :=
  match o with
  | some q => JSNum.num q
  | none => JSNum.nan

/-- `calculateHeatPumpEfficiency(heatingDesign, crossoverTemp, hdd)`
(script.js:1050-1081): heat-pump share of annual heating, or `null`
(modelled `none`) when `hdd` is absent, zero or negative
(JS `if (!hdd || hdd <= 0) return null`). -/
def calculateHeatPumpEfficiency (heatingDesign crossoverTemp : ℚ)
    (hdd : Option ℚ) : Option ℚ :=
  match hdd with
  | none => none
  | some h =>
    if h ≤ 0 then none
    else if 65 ≤ crossoverTemp then some 1
    else if crossoverTemp ≤ heatingDesign then some 0
    else
      let totalRange := 65 - heatingDesign
      let hpRange := 65 - crossoverTemp
      if totalRange ≤ 0 then some 0
      else some (min 1 (hpRange / totalRange))

/-- Modelled from the spec: the spec's piecewise heat-pump share
(§4.4 hybrid rule, clauses in the spec's order), written out for
comparison with the share the code's hybrid branch actually uses. -/
def specHeatPumpShare (heatingDesign crossover : ℚ) : ℚ :=
  if crossover < heatingDesign then 1
  else if 65 ≤ crossover then 1
  else if crossover ≤ heatingDesign then 0
  else min 1 ((65 - crossover) / (65 - heatingDesign))

/-- JS `value || default` on a parsed number: `0` (and `NaN`, which the
callers exclude upstream by `parseFloat(..) || d`) falls back to the
default. -/
def jsOrDefault (q d : ℚ) : ℚ := if q = 0 then d else q

/-- Specs object passed to `calculateSystemCosts`: the `systems` table of
`calculateHVACCosts` (script.js:913-927).  A field the JS object omits
(`cop` for the furnace, `furnaceAFUE` for the heat pump) is `undefined`
and enters arithmetic as NaN, hence `JSNum.nan`. -/
structure SystemSpecs where
  cop : JSNum
  furnaceAFUE : JSNum
deriving DecidableEq, Repr

/-- The three system archetypes. -/
inductive SystemType where
  | heatPump | furnace | hybrid
deriving DecidableEq, Repr

/-- Global `houseLoads` (script.js:4, set by `updateHeatingLoad`);
always plain finite numbers. -/
structure HouseLoads where
  heating : ℚ
  cooling : ℚ
deriving DecidableEq, Repr

/-- Cost record returned by `calculateSystemCosts` (script.js:1040-1047). -/
structure CostResult where
  install : JSNum
  energy : JSNum
  maintenance : JSNum
  total : JSNum
  annualTherms : JSNum
  annualKWh : JSNum
deriving DecidableEq, Repr

/-- The heat-pump percentage the hybrid branch of `calculateSystemCosts`
actually uses (script.js:1010-1022, factored out verbatim including the
`Number.isFinite(crossoverTemp) ? crossoverTemp : 35` guard): a step
function of the gap between crossover and heating design temperature. -/
def hybridHeatPumpPercentage (heatingDesign crossoverTemp : JSNum) : JSNum :=
  let xover := if crossoverTemp.isFinite then crossoverTemp else .num 35
  if jgt heatingDesign xover then .num 1
  else if jgt heatingDesign (jsub xover (.num 15)) then .num (7/10)
  else if jgt heatingDesign (jsub xover (.num 25)) then .num (1/2)
  else .num (3/10)

/-- `calculateSystemCosts(systemType, specs, hdd, cdd, heatingDesign,
coolingDesign, electricityRate, gasRate, crossoverTemp)`
(script.js:953-1048), with the module-level `houseLoads` passed
explicitly.  There is no input validation: a heating design temperature
of 65 °F makes `heatingDesignDiff` zero and the division produces
`Infinity`, which flows into the returned record. -/
def calculateSystemCosts (systemType : SystemType) (specs : SystemSpecs)
    (hdd cdd heatingDesign coolingDesign electricityRate gasRate
      crossoverTemp : JSNum) (houseLoads : HouseLoads) : CostResult :=
  let designHeatingLoad : JSNum := .num (jsOrDefault houseLoads.heating 50000)
  let designCoolingLoad : JSNum := .num (jsOrDefault houseLoads.cooling 40000)
  let indoorTemp : JSNum := .num 65
  let heatingDesignDiff := jsub indoorTemp heatingDesign
  let coolingDesignDiff := jsub coolingDesign indoorTemp
  let heatLossRate := jdiv designHeatingLoad heatingDesignDiff
  let coolGainRate := jdiv designCoolingLoad coolingDesignDiff
  let annualHeatingLoad := jmul (jmul heatLossRate hdd) (.num 24)
  let _annualCoolingLoad := jmul (jmul coolGainRate cdd) (.num 24)
  match systemType with
  | .furnace =>
    let heatingTherms := jdiv annualHeatingLoad (jmul (.num 100000) specs.furnaceAFUE)
    let annualHeatingCost := jmul heatingTherms gasRate
    let annualCoolingCost : JSNum := .num 0
    let annualEnergyCost := jadd annualHeatingCost annualCoolingCost
    { install := .num 0, energy := jround annualEnergyCost,
      maintenance := .num 0, total := jround annualEnergyCost,
      annualTherms := heatingTherms, annualKWh := .num 0 }
  | .heatPump =>
    let heatingkWh := jdiv annualHeatingLoad (jmul specs.cop (.num 3412))
    let annualHeatingCost := jmul heatingkWh electricityRate
    let annualCoolingCost : JSNum := .num 0
    let annualEnergyCost := jadd annualHeatingCost annualCoolingCost
    { install := .num 0, energy := jround annualEnergyCost,
      maintenance := .num 0, total := jround annualEnergyCost,
      annualTherms := .num 0, annualKWh := heatingkWh }
  | .hybrid =>
    let heatPumpPercentage := hybridHeatPumpPercentage heatingDesign crossoverTemp
    let heatPumpHeatingLoad := jmul annualHeatingLoad heatPumpPercentage
    let gasHeatingLoad := jmul annualHeatingLoad (jsub (.num 1) heatPumpPercentage)
    let heatPumpkWh := jdiv heatPumpHeatingLoad (jmul specs.cop (.num 3412))
    let gasHeatingTherms := jdiv gasHeatingLoad (jmul (.num 100000) specs.furnaceAFUE)
    let annualHeatingCost := jadd (jmul heatPumpkWh electricityRate)
      (jmul gasHeatingTherms gasRate)
    let annualCoolingCost : JSNum := .num 0
    let annualEnergyCost := jadd annualHeatingCost annualCoolingCost
    { install := .num 0, energy := jround annualEnergyCost,
      maintenance := .num 0, total := jround annualEnergyCost,
      annualTherms := gasHeatingTherms, annualKWh := heatPumpkWh }

/-- Normalized climate record (the shape `lookupClimateData` stores in the
global `climateData`): numeric fields that may be `undefined`/non-finite
are `Option ℚ`. -/
structure ClimateRecord where
  name : String
  heating : Option ℚ
  cooling : Option ℚ
  hdd : Option ℚ
  cdd : Option ℚ
  source : String
  lat : Option ℚ
  lon : Option ℚ
deriving DecidableEq, Repr

/-- `computeAutoCrossoverTemperature(pricePerKWh, pricePerTherm,
furnaceEffPercent, copAt47F)` (script.js:1090-1102).  The arguments are
already numbers when called from `calculateHVACCosts`, so the inner
`parseFloat(x) || d` reduces to the zero-fallback `jsOrDefault`. -/
def computeAutoCrossoverTemperature
    (pricePerKWh pricePerTherm furnaceEffPercent copAt47F : ℚ) : ℚ :=
  let afue := max (1/2) (min 1 (jsOrDefault furnaceEffPercent 95 / 100))
  let e := max (1/100) (jsOrDefault pricePerKWh (12/100))
  let g := max (1/100) (jsOrDefault pricePerTherm (12/10))
  let cop47 := max 1 (jsOrDefault copAt47F (35/10))
  let cop17 := max 1 (cop47 - 3/2)
  let slopePerDeg := (cop17 - cop47) / (17 - 47)
  let copThreshold := (293/10) * afue * (e / g)
  if |slopePerDeg| < 1/1000000 then 35
  else max 0 (min 70 (47 + (copThreshold - cop47) / slopePerDeg))

/-- The user-input block read at the top of `calculateHVACCosts`
(script.js:895-901): each rate/efficiency field after `parseFloat`, with
`none` standing for an unparsable field (`parseFloat` returned NaN). -/
structure HvacInputs where
  electricityRate : Option ℚ
  gasRate : Option ℚ
  heatPumpCOP : Option ℚ
  furnaceEfficiency : Option ℚ
  crossoverTemp : Option ℚ
  autoCrossover : Bool
deriving DecidableEq, Repr

/-- Result triple of `calculateHVACCosts`. -/
structure HvacResults where
  heatPump : CostResult
  furnace : CostResult
  hybrid : CostResult
deriving DecidableEq, Repr

/-- JS `parseFloat(el.value) || d`: NaN (unparsable) and `0` both fall to
the default. -/
def jsParsedOrDefault (o : Option ℚ) (d : ℚ) : ℚ :=
  match o with
  | none => d
  | some q => jsOrDefault q d

/-- `calculateHVACCosts()` (script.js:889-951), restricted to its
computational content: reads the climate record and the inputs, resolves
the crossover temperature (manual or automatic), and runs
`calculateSystemCosts` for the three archetypes.  `cdd` and `cooling`
default to `0` when non-finite (script.js:891-893); `hdd` and `heating`
are used raw.  No validation of `heating ≥ 65` happens anywhere on this
path. -/
def calculateHVACCosts (climateData : ClimateRecord) (inputs : HvacInputs)
    (houseLoads : HouseLoads) : HvacResults :=
  let hdd := jsOfOpt climateData.hdd
  let cdd : JSNum := .num (climateData.cdd.getD 0)
  let heatingDesign := jsOfOpt climateData.heating
  let coolingDesign : JSNum := .num (climateData.cooling.getD 0)
  let electricityRate := jsParsedOrDefault inputs.electricityRate (12/100)
  let gasRate := jsParsedOrDefault inputs.gasRate (12/10)
  let heatPumpCOP := jsParsedOrDefault inputs.heatPumpCOP (35/10)
  let furnaceEfficiency := jsParsedOrDefault inputs.furnaceEfficiency 95
  let crossoverTemp0 : ℚ :=
    match inputs.crossoverTemp with
    | none => 35
    | some q => q
  let crossoverTemp : ℚ :=
    if inputs.autoCrossover then
      max 20 (min 50 (roundQ (computeAutoCrossoverTemperature
        electricityRate gasRate furnaceEfficiency heatPumpCOP)))
    else crossoverTemp0
  let run := fun (ty : SystemType) (specs : SystemSpecs) =>
    calculateSystemCosts ty specs hdd cdd heatingDesign coolingDesign
      (.num electricityRate) (.num gasRate) (.num crossoverTemp) houseLoads
  { heatPump := run .heatPump { cop := .num heatPumpCOP, furnaceAFUE := .nan },
    furnace := run .furnace { cop := .nan, furnaceAFUE := .num (furnaceEfficiency / 100) },
    hybrid := run .hybrid { cop := .num heatPumpCOP,
                            furnaceAFUE := .num (furnaceEfficiency / 100) } }

/-- Rational stand-ins for the transcendental pieces of `Math` used by the
distance utilities.  Only NaN / Infinity propagation and guard structure
matter to the claims, so the finite-valued kernels are parameters:
every theorem about the utilities holds for every interpretation.
`atan2Special` covers JS `Math.atan2` applied to non-NaN, non-finite
arguments, where JS returns a finite angle. -/
structure MathKernel where
  sinQ : ℚ → ℚ
  cosQ : ℚ → ℚ
  sqrtQ : ℚ → ℚ
  atan2Q : ℚ → ℚ → ℚ
  atan2Special : JSNum → JSNum → ℚ
  piQ : ℚ

/-- A trivial kernel used to instantiate closed counterexamples. -/
def K0 : MathKernel :=
  { sinQ := fun _ => 0, cosQ := fun _ => 0, sqrtQ := fun _ => 0,
    atan2Q := fun _ _ => 0, atan2Special := fun _ _ => 0, piQ := 0 }

/-- JS `Math.sin`: NaN for any non-finite argument. -/
def jsSin (K : MathKernel) : JSNum → JSNum
  | .num q => .num (K.sinQ q)
  | _ => .nan

/-- JS `Math.cos`: NaN for any non-finite argument. -/
def jsCos (K : MathKernel) : JSNum → JSNum
  | .num q => .num (K.cosQ q)
  | _ => .nan

/-- JS `Math.sqrt`: NaN for NaN, negative and `-Infinity` arguments,
`Infinity` for `Infinity`. -/
def jsSqrt (K : MathKernel) : JSNum → JSNum
  | .num q => if q < 0 then .nan else .num (K.sqrtQ q)
  | .inf => .inf
  | _ => .nan

/-- JS `Math.atan2`: NaN exactly when an argument is NaN; finite
otherwise (including infinite arguments). -/
def jsAtan2 (K : MathKernel) : JSNum → JSNum → JSNum
  | .nan, _ => .nan
  | _, .nan => .nan
  | .num y, .num x => .num (K.atan2Q y x)
  | y, x => .num (K.atan2Special y x)

/-- `calculateDistance(lat1, lon1, lat2, lon2)` (script.js:781-791):
haversine distance in miles (`R = 3959`).  No finiteness guard: a NaN
coordinate propagates to a NaN result. -/
def calculateDistance (K : MathKernel) (lat1 lon1 lat2 lon2 : JSNum) : JSNum :=
  let R : JSNum := .num 3959
  let piOver180 : JSNum := .num (K.piQ / 180)
  let dLat := jmul (jsub lat2 lat1) piOver180
  let dLon := jmul (jsub lon2 lon1) piOver180
  let a := jadd (jmul (jsSin K (jdiv dLat (.num 2))) (jsSin K (jdiv dLat (.num 2))))
    (jmul (jmul (jsCos K (jmul lat1 piOver180)) (jsCos K (jmul lat2 piOver180)))
      (jmul (jsSin K (jdiv dLon (.num 2))) (jsSin K (jdiv dLon (.num 2)))))
  let c := jmul (.num 2) (jsAtan2 K (jsSqrt K a) (jsSqrt K (jsub (.num 1) a)))
  jmul R c

/-- `haversine(lat1, lon1, lat2, lon2)` (script.js:252-260): the same
formula with `R = 6371` km and `toRad` applied as in the source. -/
def haversine (K : MathKernel) (lat1 lon1 lat2 lon2 : JSNum) : JSNum :=
  let R : JSNum := .num 6371
  let toRad := fun (v : JSNum) => jdiv (jmul v (.num K.piQ)) (.num 180)
  let dLat := toRad (jsub lat2 lat1)
  let dLon := toRad (jsub lon2 lon1)
  let a := jadd (jmul (jsSin K (jdiv dLat (.num 2))) (jsSin K (jdiv dLat (.num 2))))
    (jmul (jmul (jsCos K (toRad lat1)) (jsCos K (toRad lat2)))
      (jmul (jsSin K (jdiv dLon (.num 2))) (jsSin K (jdiv dLon (.num 2)))))
  let c := jmul (.num 2) (jsAtan2 K (jsSqrt K a) (jsSqrt K (jsub (.num 1) a)))
  jmul R c

/-- A NOAA normals station as parsed by `tryMergeNoaaNormalsHddCdd`
(script.js:210-218): `lat`/`lon` finite by construction, `hdd`/`cdd`
possibly absent or non-finite. -/
structure NormalsStation where
  id : String
  name : String
  lat : ℚ
  lon : ℚ
  hdd : Option ℚ
  cdd : Option ℚ
deriving DecidableEq, Repr

/-- `nearestStation(lat, lon, stations)` (script.js:242-250): `null` when
a query coordinate is non-finite (`Option ℚ` models
undefined/NaN/Infinity) or the candidate list is empty; otherwise a
strict-`<` scan against a best distance starting at `Infinity`. -/
def nearestStation (K : MathKernel) (lat lon : Option ℚ)
    (stations : List NormalsStation) : Option NormalsStation :=
  match lat, lon, stations with
  | none, _, _ => none
  | _, none, _ => none
  | _, _, [] => none
  | some la, some lo, sts =>
    let step := fun (acc : Option NormalsStation × JSNum) (s : NormalsStation) =>
      let d := haversine K (.num la) (.num lo) (.num s.lat) (.num s.lon)
      if jlt d acc.2 then (some s, d) else acc
    (sts.foldl step (none, .inf)).1

/-- A station of the on-demand NOAA station database
(`noaa_climate_database.json`), as read by `findNearestNoaaStation`:
`latitude`/`longitude`/`hdd`/`cdd` may be absent or non-finite, the
display fields may be absent. -/
structure NoaaDbStation where
  name : Option String
  station_id : Option String
  latitude : Option ℚ
  longitude : Option ℚ
  hdd : Option ℚ
  cdd : Option ℚ
deriving DecidableEq, Repr

/-- Result shape of `findNearestNoaaStation` (script.js:46). -/
structure NearestNoaa where
  station : NoaaDbStation
  distance_mi : JSNum
deriving DecidableEq, Repr

/-- `findNearestNoaaStation(lat, lon, stations)` (script.js:36-47): `null`
for a non-finite query coordinate or an empty list; stations with
non-finite coordinates are skipped inside the scan; distances are in
miles via `calculateDistance`. -/
def findNearestNoaaStation (K : MathKernel) (lat lon : Option ℚ)
    (stations : List NoaaDbStation) : Option NearestNoaa :=
  match lat, lon, stations with
  | none, _, _ => none
  | _, none, _ => none
  | _, _, [] => none
  | some la, some lo, sts =>
    let step := fun (acc : Option NoaaDbStation × JSNum) (s : NoaaDbStation) =>
      match s.latitude, s.longitude with
      | some slat, some slon =>
        let d := calculateDistance K (.num la) (.num lo) (.num slat) (.num slon)
        if jlt d acc.2 then (some s, d) else acc
      | _, _ => acc
    match sts.foldl step (none, .inf) with
    | (none, _) => none
    | (some best, bestD) =>
      some { station := best, distance_mi := jdiv (jround (jmul bestD (.num 10))) (.num 10) }

/-- A raw climate entry (ZIP-table, county-table or CSV-imported object):
every field-name variant `normalizeCountyEntry` accepts is a field, with
`none` for absent or non-finite values. -/
structure RawEntry where
  name : Option String := none
  state : Option String := none
  fips : Option String := none
  source : Option String := none
  heating : Option ℚ := none
  heating_99 : Option ℚ := none
  heatingDesign : Option ℚ := none
  heating_design : Option ℚ := none
  cooling : Option ℚ := none
  cooling_01 : Option ℚ := none
  coolingDesign : Option ℚ := none
  cooling_design : Option ℚ := none
  hdd : Option ℚ := none
  HDD : Option ℚ := none
  heating_degree_days : Option ℚ := none
  HDD65 : Option ℚ := none
  cdd : Option ℚ := none
  CDD : Option ℚ := none
  cooling_degree_days : Option ℚ := none
  CDD65 : Option ℚ := none
  lat : Option ℚ := none
  lon : Option ℚ := none
deriving DecidableEq, Repr

/-- Result of the FCC county resolver (`getCountyFIPS`,
script.js:663-681); `countyFIPS` may be `null`. -/
structure FipsInfo where
  countyFIPS : Option String
  countyName : String
  stateAbbr : String
deriving DecidableEq, Repr

/-- Result of the ZIP geocoder (`getLocationFromZip`, script.js:633-661). -/
structure LocationData where
  latitude : ℚ
  longitude : ℚ
  city : String
  state : String
deriving DecidableEq, Repr

/-- JS `o || d` on a string field: `undefined` and the empty string both
fall back. -/
def jsOrStr (o : Option String) (d : String) : String :=
  match o with
  | none => d
  | some s => if s = "" then d else s

/-- JS template interpolation of a possibly-undefined string
(`undefined` prints as the text `undefined`). -/
def jsTemplateStr (o : Option String) : String := o.getD "undefined"

/-- `ZIP_TO_FIPS_OVERRIDE` (script.js:50-56), verbatim.  Nothing in
script.js reads this table: its only occurrence is its definition. -/
def ZIP_TO_FIPS_OVERRIDE : List (String × String) :=
  [("97201", "41051"), ("97219", "41051"), ("97501", "41029"),
   ("97015", "41005"), ("96001", "06089")]

/-- `LOCAL_RESNET_FALLBACK` (script.js:467-470), verbatim
(42.1 = 421/10, -72.6 = -363/5, 45.5 = 91/2, -122.7 = -1227/10). -/
def LOCAL_RESNET_FALLBACK : List (String × RawEntry) :=
  [("01001", { name := some "AGAWAM/WESTFIELD, MA", heating := some 5,
               cooling := some 87, hdd := some 6479, cdd := some 764,
               lat := some (421/10), lon := some (-363/5),
               source := some "Hardcoded Fallback" }),
   ("97201", { name := some "PORTLAND, OR", heating := some 25,
               cooling := some 85, hdd := some 4635, cdd := some 341,
               lat := some (91/2), lon := some (-1227/10),
               source := some "Hardcoded Fallback" })]

/-- `normalizeCountyEntry(entry, fipsInfo)` (script.js:617-631): first
finite value among the accepted field-name variants per target field
(`??` chains), with `||` fallbacks for the display fields. -/
def normalizeCountyEntry (entry : RawEntry) (fipsInfo : FipsInfo) : ClimateRecord :=
  let heating := entry.heating <|> entry.heating_99 <|> entry.heatingDesign <|>
    entry.heating_design
  let cooling := entry.cooling <|> entry.cooling_01 <|> entry.coolingDesign <|>
    entry.cooling_design
  let hdd := entry.hdd <|> entry.HDD <|> entry.heating_degree_days <|> entry.HDD65
  let cdd := entry.cdd <|> entry.CDD <|> entry.cooling_degree_days <|> entry.CDD65
  { name := jsOrStr entry.name (fipsInfo.countyName ++ ", " ++ fipsInfo.stateAbbr),
    heating := heating, cooling := cooling, hdd := hdd, cdd := cdd,
    source := jsOrStr entry.source "Appendix A (Normative) + RESNET HDD/CDD",
    lat := entry.lat, lon := entry.lon }

/-- `getResnetStations()` (script.js:472-475): the ZIP-table values with
finite coordinates. -/
def getResnetStations (resnet : List (String × RawEntry)) : List RawEntry :=
  (resnet.map Prod.snd).filter (fun s => s.lat.isSome && s.lon.isSome)

/-- `findNearestResnetStation(lat, lon)` (script.js:477-494),
parameterized by the ZIP table: `null` when the filtered station list is
empty or a query coordinate is non-finite; otherwise the strict-`<`
nearest scan in miles. -/
def findNearestResnetStation (K : MathKernel) (resnet : List (String × RawEntry))
    (lat lon : Option ℚ) : Option RawEntry :=
  let stations := getResnetStations resnet
  match lat, lon with
  | some la, some lo =>
    if stations.isEmpty then none
    else
      let step := fun (acc : Option RawEntry × JSNum) (s : RawEntry) =>
        let d := calculateDistance K (.num la) (.num lo)
          (jsOfOpt s.lat) (jsOfOpt s.lon)
        if jlt d acc.2 then (some s, d) else acc
      (stations.foldl step (none, .inf)).1
  | _, _ => none

/-- The stage-2b NOAA merge of `lookupClimateData` (script.js:561-575),
factored out verbatim: when the station database is non-empty and a
nearest station exists, its finite `hdd`/`cdd` values are written into
the normalized record — with no check whether the record already has
finite values — and provenance text is appended unconditionally. -/
def noaaMergeStep (K : MathKernel) (lat lon : ℚ)
    (stations : List NoaaDbStation) (normalized : ClimateRecord) : ClimateRecord :=
  if stations.isEmpty then normalized
  else
    match findNearestNoaaStation K (some lat) (some lon) stations with
    | none => normalized
    | some nearest =>
      let hdd' := match nearest.station.hdd with
        | some q => some q
        | none => normalized.hdd
      let cdd' := match nearest.station.cdd with
        | some q => some q
        | none => normalized.cdd
      let nearestName := jsOrStr nearest.station.name
        (jsOrStr nearest.station.station_id "NOAA Station")
      let txt := "NOAA Normals 2006–2020 (nearest: " ++ nearestName ++ ")"
      let source' := if normalized.source = "" then txt
        else normalized.source ++ " + " ++ txt
      { normalized with hdd := hdd', cdd := cdd', source := source' }

/-- Outcome of one `lookupClimateData` run: success with the stored
record, or one of the explicit failure surfaces of the source
(invalid-ZIP message, the `file://` needs-network message, or the
catch-all lookup failure message). -/
inductive LookupOutcome where
  | success : ClimateRecord → LookupOutcome
  | invalidZip : LookupOutcome
  | needsNetwork : LookupOutcome
  | failed : LookupOutcome
deriving DecidableEq, Repr

/-- The environment of one lookup: the in-memory tables, the offline
flag, the two network collaborators (as oracles, `none` = failure), the
NOAA station database (`[]` when the file is absent or unreadable, as in
`loadNoaaStationsDb`), and the math kernel. -/
structure LookupEnv where
  resnet : List (String × RawEntry)
  countyIndex : List (String × RawEntry)
  fileProtocol : Bool
  getLocation : String → Option LocationData
  getFips : ℚ → ℚ → Option FipsInfo
  noaaStations : List NoaaDbStation
  K : MathKernel

/-- The stage-1 in-memory normalization (script.js:516-521), inlined in
the source at the point of the early `return`. -/
def stage1Normalize (zip : String) (zr : RawEntry) : ClimateRecord :=
  { name := jsOrStr zr.name ("ZIP " ++ zip),
    heating := zr.heating, cooling := zr.cooling,
    hdd := zr.hdd, cdd := zr.cdd,
    source := match zr.source with
      | none => "RESNET/ASHRAE ZIP " ++ zip
      | some s => if s = "" then "RESNET/ASHRAE ZIP " ++ zip
          else "RESNET/ASHRAE ZIP " ++ zip ++ " – " ++ s,
    lat := zr.lat, lon := zr.lon }

/-- The network stage of `lookupClimateData` (script.js:539-594).  The
second component counts collaborator/network fetches (geocode, FIPS,
NOAA-db load).  The county lookup uses `fipsInfo.countyFIPS` directly;
`ZIP_TO_FIPS_OVERRIDE` is not consulted (it is not consulted anywhere). -/
def lookupNetworkStage (env : LookupEnv) (zip : String) : LookupOutcome × Nat :=
  if env.fileProtocol then (.needsNetwork, 0)
  else
    match env.getLocation zip with
    | none => (.failed, 1)
    | some loc =>
      match env.getFips loc.latitude loc.longitude with
      | none => (.failed, 2)
      | some fipsInfo =>
        let countyEntry0 := fipsInfo.countyFIPS.bind
          (fun f => env.countyIndex.lookup f)
        let countyEntry1 : Option RawEntry :=
          match countyEntry0 with
          | some e => some e
          | none =>
            match findNearestResnetStation env.K env.resnet
              (some loc.latitude) (some loc.longitude) with
            | some st => some { st with
                source := some ("Nearest RESNET Station: " ++ jsTemplateStr st.name) }
            | none => none
        match countyEntry1 with
        | none => (.failed, 2)
        | some ce =>
          let normalized := normalizeCountyEntry ce fipsInfo
          if normalized.heating.isNone then (.failed, 2)
          else
            let merged := noaaMergeStep env.K loc.latitude loc.longitude
              env.noaaStations normalized
            if merged.hdd.isNone then (.failed, 3)
            else (.success merged, 3)

/-- `lookupClimateData()` (script.js:496-595) as a function of the ZIP
and the environment: ZIP syntax check, stage-1 in-memory short circuit
(primary ZIP table `||` hardcoded fallback, requiring all four numeric
fields finite), then the `file://` guard and the network chain. -/
def lookupClimateData (env : LookupEnv) (zip : String) : LookupOutcome × Nat :=
  if zip.length ≠ 5 then (.invalidZip, 0)
  else
    match (env.resnet.lookup zip).orElse (fun _ => LOCAL_RESNET_FALLBACK.lookup zip) with
    | some entry =>
      if entry.heating.isSome && entry.cooling.isSome &&
          entry.hdd.isSome && entry.cdd.isSome then
        (.success (stage1Normalize zip entry), 0)
      else lookupNetworkStage env zip
    | none => lookupNetworkStage env zip

/-- JS `text.split(/\r?\n/).filter(l => l.trim().length > 0)`.  (The only
divergence is a final line ending in a bare `\r` with no newline, which
the claims never exercise.) -/
def jsSplitLines (text : String) : List String :=
  ((text.splitOn "\n").map
    (fun l => if l.endsWith "\r" then l.dropRight 1 else l)).filter
    (fun l => l.trim.length > 0)

/-- JS `String(s).padStart(5, '0')`. -/
def padStart5 (s : String) : String :=
  if s.length ≥ 5 then s else String.mk (List.replicate (5 - s.length) '0' ++ s.data)

/-- JS `header.indexOf(name)` as an `Option Nat` (`none` = `-1`). -/
def headerIdx (header : List String) (name : String) : Option Nat :=
  header.indexOf? name

/-- JS `[idx(a), idx(b), ...].find(i => i >= 0)`: the first column index
among the candidates present in the header. -/
def firstCol (l : List (Option Nat)) : Option Nat := (l.filterMap id).head?

/-- The merge loop of `tryLoadExternalCountyJson` (script.js:104-132),
given the FIPS index built from the fetched JSON: entries are copied
only for FIPS keys not already present in the county index. -/
def tryLoadExternalCountyJson (idx newIdx : List (String × RawEntry)) :
    List (String × RawEntry) :=
  newIdx.foldl
    (fun acc kv => if (acc.lookup kv.1).isNone then acc ++ [kv] else acc) idx

/-- `tryLoadExternalCountyCsv` (script.js:134-183) on fetched text.
`parseNum` stands for the strict JS coercion
`Number(String(v).trim())`-is-finite (script.js:162-165), applied to the
trimmed cell; rows whose FIPS is already present are skipped. -/
def tryLoadExternalCountyCsv (parseNum : String → Option ℚ)
    (idx : List (String × RawEntry)) (text : String) :
    List (String × RawEntry) :=
  let lines := jsSplitLines text
  if lines.length < 2 then idx
  else
    let header := ((lines.headD "").splitOn ",").map (fun h => h.trim.toLower)
    match firstCol [headerIdx header "fips", headerIdx header "county_fips"] with
    | none => idx
    | some fipsIdx =>
      let nameIdx := firstCol [headerIdx header "name", headerIdx header "county",
        headerIdx header "county_name"]
      let stateIdx := firstCol [headerIdx header "state", headerIdx header "state_abbr",
        headerIdx header "state_code"]
      let heatingIdx := firstCol [headerIdx header "heating", headerIdx header "heating_99",
        headerIdx header "heatingdesign", headerIdx header "heating_design"]
      let coolingIdx := firstCol [headerIdx header "cooling", headerIdx header "cooling_01",
        headerIdx header "coolingdesign", headerIdx header "cooling_design"]
      let hddIdx := firstCol [headerIdx header "hdd", headerIdx header "hdd65",
        headerIdx header "heating_degree_days"]
      let cddIdx := firstCol [headerIdx header "cdd", headerIdx header "cdd65",
        headerIdx header "cooling_degree_days"]
      let cellStr := fun (cols : List String) (i : Nat) =>
        ((cols.getD i "undefined").trim)
      let cellNum := fun (cols : List String) (i : Nat) =>
        (cols.get? i).bind (fun c => parseNum c.trim)
      lines.tail.foldl
        (fun acc line =>
          let cols := line.splitOn ","
          if cols.length ≤ fipsIdx then acc
          else
            let fips := padStart5 (cellStr cols fipsIdx)
            if fips = "" || (acc.lookup fips).isSome then acc
            else
              let entry : RawEntry :=
                { name := nameIdx.map (fun i => cellStr cols i),
                  state := stateIdx.map (fun i => (cellStr cols i).toUpper),
                  fips := some fips,
                  heating := heatingIdx.bind (fun i => cellNum cols i),
                  cooling := coolingIdx.bind (fun i => cellNum cols i),
                  hdd := hddIdx.bind (fun i => cellNum cols i),
                  cdd := cddIdx.bind (fun i => cellNum cols i),
                  source := some "External CSV import" }
              acc ++ [(fips, entry)])
        idx

/-- The per-county body of the backfill loop of
`tryMergeNoaaNormalsHddCdd` (script.js:225-235): skip entries whose
`hdd` and `cdd` are both finite, otherwise fill the non-finite ones from
the nearest station's finite values. -/
def noaaFillEntry (K : MathKernel) (stations : List NormalsStation)
    (e : RawEntry) : RawEntry :=
  let needsHdd := e.hdd.isNone
  let needsCdd := e.cdd.isNone
  if !needsHdd && !needsCdd then e
  else
    match nearestStation K e.lat e.lon stations with
    | none => e
    | some s =>
      { e with
        hdd := if needsHdd && s.hdd.isSome then s.hdd else e.hdd,
        cdd := if needsCdd && s.cdd.isSome then s.cdd else e.cdd }

/-- `tryMergeNoaaNormalsHddCdd` (script.js:186-240) on fetched text:
parse the normals CSV into stations (`parseFloatQ` stands for JS
`parseFloat`-is-finite), then backfill `hdd`/`cdd` — and only
`hdd`/`cdd`, and only when the existing value is non-finite — from the
nearest station (kilometre haversine). -/
def tryMergeNoaaNormalsHddCdd (K : MathKernel) (parseFloatQ : String → Option ℚ)
    (idx : List (String × RawEntry)) (text : String) :
    List (String × RawEntry) :=
  let lines := jsSplitLines text
  if lines.length < 2 then idx
  else
    let header := ((lines.headD "").splitOn ",").map (fun h => h.trim.toLower)
    let idIdx := firstCol [headerIdx header "station_id", headerIdx header "id",
      headerIdx header "station"]
    let nameIdx := firstCol [headerIdx header "station_name", headerIdx header "name"]
    let latIdx := firstCol [headerIdx header "latitude", headerIdx header "lat"]
    let lonIdx := firstCol [headerIdx header "longitude", headerIdx header "lon",
      headerIdx header "lng"]
    let hddIdx := firstCol [headerIdx header "hdd65_ann", headerIdx header "hdd65",
      headerIdx header "hdd"]
    let cddIdx := firstCol [headerIdx header "cdd65_ann", headerIdx header "cdd65",
      headerIdx header "cdd"]
    match idIdx, latIdx, lonIdx with
    | some iId, some iLat, some iLon =>
      let stations : List NormalsStation :=
        lines.tail.filterMap (fun line =>
          let cols := line.splitOn ","
          if cols.length ≤ max iId (max iLat iLon) then none
          else
            let la := (cols.get? iLat).bind parseFloatQ
            let lo := (cols.get? iLon).bind parseFloatQ
            match la, lo with
            | some laq, some loq =>
              some { id := (cols.getD iId "undefined").trim,
                     name := match nameIdx with
                       | some i => (cols.getD i "undefined").trim
                       | none => "",
                     lat := laq, lon := loq,
                     hdd := hddIdx.bind (fun i => (cols.get? i).bind parseFloatQ),
                     cdd := cddIdx.bind (fun i => (cols.get? i).bind parseFloatQ) }
            | _, _ => none)
      if stations.isEmpty then idx
      else idx.map (fun p => (p.1, noaaFillEntry K stations p.2))
    | _, _, _ => idx

/-- The `'33101'` row of `RESNET_ASHRAE_DATA`
(src/resnet_ashrae_data.js:10), verbatim
(25.795 = 5159/200, -80.287 = -80287/1000). -/
def miamiZipEntry : RawEntry :=
  { name := some "Miami, FL", heating := some 48, cooling := some 89,
    hdd := some 200, cdd := some 3500,
    source := some "Miami International Airport",
    lat := some (5159/200), lon := some (-80287/1000) }

/-- Environment holding the Miami row of the static ZIP table, with every
network collaborator failing: stage 1 must resolve without them. -/
def stage1TestEnv : LookupEnv :=
  { resnet := [("33101", miamiZipEntry)], countyIndex := [],
    fileProtocol := false, getLocation := fun _ => none,
    getFips := fun _ _ => none, noaaStations := [], K := K0 }

/-- The user-input block of the C5 scenario: AFUE 95 %,
$0.12/kWh, $1.20/therm, COP 3.5, manual crossover 35 °F. -/
def scenarioInputs : HvacInputs :=
  { electricityRate := some (3/25), gasRate := some (6/5),
    heatPumpCOP := some (7/2), furnaceEfficiency := some 95,
    crossoverTemp := some 35, autoCrossover := false }

/-- County entry the FIPS resolver's (non-overridden) code `06007` maps
to in the override test environment. -/
def countyEntry06007 : RawEntry :=
  { name := some "Butte County, CA", state := some "CA", fips := some "06007",
    heating := some 30, cooling := some 100, hdd := some 2600, cdd := some 1500,
    source := some "Test dataset", lat := some (397/10), lon := some (-1217/10) }

/-- County entry under the overridden FIPS `06089` (Shasta County, the
code `ZIP_TO_FIPS_OVERRIDE` assigns to ZIP 96001). -/
def countyEntry06089 : RawEntry :=
  { name := some "Shasta County, CA", state := some "CA", fips := some "06089",
    heating := some 20, cooling := some 102, hdd := some 2900, cdd := some 1600,
    source := some "Test dataset", lat := some (203/5), lon := some (-611/5) }

/-- Environment for the override test: ZIP 96001 misses the in-memory
tables, geocodes successfully, and the FIPS resolver returns `06007`
while the override table says `06089`; both FIPS codes are present in
the county index with different data. -/
def overrideTestEnv : LookupEnv :=
  { resnet := [],
    countyIndex := [("06007", countyEntry06007), ("06089", countyEntry06089)],
    fileProtocol := false,
    getLocation := fun z => if z = "96001" then
      some { latitude := 203/5, longitude := -612/5, city := "Redding",
             state := "CA" } else none,
    getFips := fun _ _ =>
      some { countyFIPS := some "06007", countyName := "Butte County",
             stateAbbr := "CA" },
    noaaStations := [], K := K0 }

/-- The `FipsInfo` the override test's resolver returns. -/
def overrideTestFips : FipsInfo :=
  { countyFIPS := some "06007", countyName := "Butte County", stateAbbr := "CA" }

/-- A climate record with `heatingDesignTempF = 65` and otherwise valid
Miami-like data: the input §4.4 says must be rejected. -/
def degenerateClimateRecord : ClimateRecord :=
  { name := "Degenerate", heating := some 65, cooling := some 89,
    hdd := some 200, cdd := some 3500, source := "test", lat := none, lon := none }

/-- The cost-model outputs at the degenerate record (AFUE 95 %,
$0.12/kWh, $1.20/therm, COP 3.5, crossover 35 °F, 50 000 BTU/hr load). -/
def degenerateHvacResults : HvacResults :=
  calculateHVACCosts degenerateClimateRecord scenarioInputs ⟨50000, 40000⟩

/-- NOAA-database station colocated with the C3 test record, carrying
finite `hdd = 5000`, `cdd = 1`. -/
def testNoaaStation : NoaaDbStation :=
  { name := some "TEST STATION", station_id := some "S1",
    latitude := some 0, longitude := some 0, hdd := some 5000, cdd := some 1 }

/-- A complete normalized record (finite `hdd = 100`, `cdd = 200`) fed to
the stage-2b NOAA merge in the C3 counterexample. -/
def testNoaaRecord : ClimateRecord :=
  { name := "Complete County, XX", heating := some 10, cooling := some 80,
    hdd := some 100, cdd := some 200, source := "SRC", lat := some 0, lon := some 0 }

/-- Second station/record pair (station without `cdd`) exercising the
merge's fill path for the C3 witness. -/
def testNoaaStation2 : NoaaDbStation :=
  { name := none, station_id := some "S2",
    latitude := some 1, longitude := some 1, hdd := some 4321, cdd := none }

/-- Record for the C3 witness. -/
def testNoaaRecord2 : ClimateRecord :=
  { name := "Y", heating := some 3, cooling := none,
    hdd := some 7, cdd := some 8, source := "", lat := some 1, lon := some 1 }

/-! ## Helper lemmas -/

@[simp] theorem jadd_nan_left (x : JSNum) : jadd .nan x = .nan := by
  cases x <;> rfl

@[simp] theorem jadd_nan_right (x : JSNum) : jadd x .nan = .nan := by
  cases x <;> rfl

@[simp] theorem jneg_nan : jneg .nan = .nan := rfl

@[simp] theorem jsub_nan_right (x : JSNum) : jsub x .nan = .nan := by
  cases x <;> rfl

@[simp] theorem jsub_nan_left (x : JSNum) : jsub .nan x = .nan := by
  cases x <;> rfl

@[simp] theorem jmul_nan_left (x : JSNum) : jmul .nan x = .nan := by
  cases x <;> rfl

@[simp] theorem jmul_nan_right (x : JSNum) : jmul x .nan = .nan := by
  cases x <;> rfl

@[simp] theorem jdiv_nan_left (x : JSNum) : jdiv .nan x = .nan := by
  cases x <;> rfl

@[simp] theorem jdiv_nan_right (x : JSNum) : jdiv x .nan = .nan := by
  cases x <;> rfl

@[simp] theorem jsSin_nan (K : MathKernel) : jsSin K .nan = .nan := rfl

@[simp] theorem jsCos_nan (K : MathKernel) : jsCos K .nan = .nan := rfl

@[simp] theorem jsSqrt_nan (K : MathKernel) : jsSqrt K .nan = .nan := rfl

@[simp] theorem jsAtan2_nan_left (K : MathKernel) (x : JSNum) :
    jsAtan2 K .nan x = .nan := by
  cases x <;> rfl

/-- `List.lookup` scans left to right: a hit in the left list survives
appending anything on the right. -/
theorem lookup_append_of_some {β : Type} (l₁ l₂ : List (String × β))
    (k : String) (v : β) (h : l₁.lookup k = some v) :
    (l₁ ++ l₂).lookup k = some v := by
  induction l₁ with
  | nil => simp [List.lookup] at h
  | cons hd tl ih =>
    simp only [List.cons_append, List.lookup] at h ⊢
    split at h
    · exact h
    · exact ih h

/-- `List.lookup` commutes with mapping a function over the values. -/
theorem lookup_map_snd {β : Type} (t : β → β) (idx : List (String × β))
    (k : String) :
    (idx.map (fun p => (p.1, t p.2))).lookup k = (idx.lookup k).map t := by
  induction idx with
  | nil => rfl
  | cons hd tl ih =>
    simp only [List.map_cons, List.lookup]
    split <;> simp [ih]

/-- A `foldl` whose step preserves a predicate preserves it overall. -/
theorem foldl_preserves {α β : Type} (step : β → α → β) (P : β → Prop)
    (h : ∀ acc x, P acc → P (step acc x)) :
    ∀ (l : List α) (acc : β), P acc → P (l.foldl step acc) := by
  intro l
  induction l with
  | nil => intro acc hacc; exact hacc
  | cons hd tl ih => intro acc hacc; exact ih (step acc hd) (h acc hd hacc)

/-- Evaluation of `calculateHeatPumpEfficiency` strictly between the
design and base temperatures. -/
theorem calculateHeatPumpEfficiency_interior (design x h : ℚ)
    (hh : 0 < h) (h₁ : design < x) (h₂ : x < 65) :
    calculateHeatPumpEfficiency design x (some h) =
      some (min 1 ((65 - x) / (65 - design))) := by
  simp only [calculateHeatPumpEfficiency]
  rw [if_neg (not_le.mpr hh), if_neg (not_le.mpr h₂), if_neg (not_le.mpr h₁),
    if_neg (by intro hc; nlinarith)]

/-! ## C10 -/

/-- C10: for every heating design temperature and crossover temperature,
when `hdd` is absent, zero or negative, `calculateHeatPumpEfficiency`
returns the non-numeric sentinel `null` (`none`) rather than a share in
[0,1]. -/
theorem heatPumpShare_null_without_positive_hdd
    (heatingDesign crossoverTemp : ℚ) (hdd : Option ℚ)
    (h : ∀ q, hdd = some q → q ≤ 0) :
    calculateHeatPumpEfficiency heatingDesign crossoverTemp hdd = none := by
  cases hdd with
  | none => rfl
  | some q => simp [calculateHeatPumpEfficiency, h q rfl]

/-- Witness for C10 at `hdd = -5` (and the design/crossover of the spec
scenario). -/
theorem heatPumpShare_null_without_positive_hdd_witness :
    calculateHeatPumpEfficiency 48 35 (some (-5)) = none :=
  heatPumpShare_null_without_positive_hdd 48 35 (some (-5))
    (fun q hq => by injection hq with hq; rw [← hq]; norm_num)

/-! ## C6 -/

/-- C6 counterexample: the heat-pump share is NOT monotonically
non-decreasing in the crossover temperature.  At design 5 °F and
`hdd = 1000`, raising the crossover from 10 °F to 35 °F drops the share
from 11/12 to 1/2. -/
theorem heatPumpShare_not_monotone_in_crossover :
    calculateHeatPumpEfficiency 5 10 (some 1000) = some (11/12) ∧
    calculateHeatPumpEfficiency 5 35 (some 1000) = some (1/2) ∧
    ¬ ((11/12 : ℚ) ≤ 1/2) := by
  refine ⟨?_, ?_, ?_⟩ <;> with_unfolding_all decide

/-- C6 amended: for every finite design temperature below 65 and
`hdd > 0`, `share(design, 65, hdd) = 1` and
`share(design, design, hdd) = 0` exactly, and on the interior
`design < crossover < 65` the share is monotonically NON-INCREASING
(not non-decreasing) in the crossover temperature. -/
theorem heatPumpShare_endpoints_and_antitone_interior
    (design h : ℚ) (hdesign : design < 65) (hh : 0 < h) :
    calculateHeatPumpEfficiency design 65 (some h) = some 1 ∧
    calculateHeatPumpEfficiency design design (some h) = some 0 ∧
    (∀ x₁ x₂ s₁ s₂ : ℚ, design < x₁ → x₁ ≤ x₂ → x₂ < 65 →
      calculateHeatPumpEfficiency design x₁ (some h) = some s₁ →
      calculateHeatPumpEfficiency design x₂ (some h) = some s₂ →
      s₂ ≤ s₁) := by
  refine ⟨?_, ?_, ?_⟩
  · simp [calculateHeatPumpEfficiency, not_le.mpr hh]
  · simp [calculateHeatPumpEfficiency, not_le.mpr hh, not_le.mpr hdesign]
  · intro x₁ x₂ s₁ s₂ hx₁ hx12 hx₂ e₁ e₂
    rw [calculateHeatPumpEfficiency_interior design x₁ h hh hx₁ (by linarith)] at e₁
    rw [calculateHeatPumpEfficiency_interior design x₂ h hh (by linarith) hx₂] at e₂
    injection e₁ with e₁
    injection e₂ with e₂
    rw [← e₁, ← e₂]
    have hD : (0:ℚ) < 65 - design := by linarith
    exact min_le_min le_rfl (by gcongr)

/-- Witness for C6's amended theorem at design 5 °F, `hdd = 1000`,
crossovers 10 °F ≤ 35 °F. -/
theorem heatPumpShare_endpoints_and_antitone_interior_witness :
    ((1:ℚ)/2) ≤ 11/12 :=
  (heatPumpShare_endpoints_and_antitone_interior 5 1000 (by norm_num)
      (by norm_num)).2.2 10 35 (11/12) (1/2) (by norm_num) (by norm_num)
    (by norm_num) (by with_unfolding_all decide) (by with_unfolding_all decide)

/-! ## C2 -/

/-- C2 counterexample: the share the hybrid cost branch uses is not the
spec's piecewise share.  At design 5 °F, crossover 35 °F the branch uses
0.3 while the spec's function gives min(1, (65-35)/(65-5)) = 1/2. -/
theorem hybridShare_not_spec_share_at_5_35 :
    hybridHeatPumpPercentage (.num 5) (.num 35) = .num (3/10) ∧
    specHeatPumpShare 5 35 = 1/2 ∧
    hybridHeatPumpPercentage (.num 5) (.num 35) ≠ .num (specHeatPumpShare 5 35) := by
  refine ⟨?_, ?_, ?_⟩ <;> with_unfolding_all decide

/-- C2 amended: for every finite design and crossover temperature, the
heat-pump share used by the hybrid branch of the cost computation is the
four-step function 1.0 / 0.7 / 0.5 / 0.3 selected by how far the design
temperature sits below the crossover (0 / 15 / 25 degrees), not the
spec's linear interpolation (which `calculateHeatPumpEfficiency`
implements for display only). -/
theorem hybridShare_is_step_function (d x : ℚ) :
    hybridHeatPumpPercentage (.num d) (.num x) =
      .num (if x < d then 1 else if x - 15 < d then 7/10
        else if x - 25 < d then 1/2 else 3/10) := by
  simp only [hybridHeatPumpPercentage, isFinite, if_true, jgt, jlt, jsub,
    jneg, jadd, decide_eq_true_eq, ← sub_eq_add_neg]
  split_ifs <;> rfl

/-! ## C1 -/

/-- C1: the cost computation does not reject a record with
`heatingDesignTempF = 65`: there is no validation anywhere on the
`calculateHVACCosts`/`calculateSystemCosts` path, and at the degenerate
record (heating 65, hdd 200) the furnace and heat-pump totals come out
`Infinity` and the hybrid total `NaN` — no `ComputationInvalid` failure
exists in the code. -/
theorem costModel_accepts_design65_and_returns_infinity :
    degenerateHvacResults.furnace.total = .inf ∧
    degenerateHvacResults.heatPump.total = .inf ∧
    degenerateHvacResults.hybrid.total = .nan ∧
    degenerateClimateRecord.heating = some 65 := by
  refine ⟨?_, ?_, ?_, ?_⟩ <;> with_unfolding_all decide

/-! ## C4 -/

/-- C4: the county dataset lookup does not use the override table.  For
ZIP 96001 (present in `ZIP_TO_FIPS_OVERRIDE` with FIPS 06089) the
resolver's FIPS 06007 wins: the lookup returns the 06007 entry
(heating 30) although the overridden FIPS 06089 entry (heating 20) is
present in the index. -/
theorem zip_override_table_not_consulted :
    ZIP_TO_FIPS_OVERRIDE.lookup "96001" = some "06089" ∧
    lookupClimateData overrideTestEnv "96001" =
      (.success (normalizeCountyEntry countyEntry06007 overrideTestFips), 3) ∧
    (normalizeCountyEntry countyEntry06007 overrideTestFips).heating = some 30 ∧
    (normalizeCountyEntry countyEntry06089 overrideTestFips).heating = some 20 := by
  refine ⟨by with_unfolding_all decide, ?_, by with_unfolding_all decide,
    by with_unfolding_all decide⟩
  simp only [lookupClimateData, overrideTestEnv, lookupNetworkStage,
    LOCAL_RESNET_FALLBACK, List.lookup, noaaMergeStep, overrideTestFips,
    List.isEmpty_nil, if_true, if_false]
  simp [normalizeCountyEntry, countyEntry06007, jsOrStr]
  rfl

/-! ## C3 -/

/-- C3 counterexample: the stage-2b NOAA merge does not skip a record
whose `hdd`/`cdd` are already finite.  A record with finite hdd=100,
cdd=200 gets both fields replaced by the nearest station's values
(5000 and 1) and its provenance text rewritten. -/
theorem noaaMerge_overwrites_finite_hdd_cdd_example :
    testNoaaRecord.hdd = some 100 ∧ testNoaaRecord.cdd = some 200 ∧
    (noaaMergeStep K0 0 0 [testNoaaStation] testNoaaRecord).hdd = some 5000 ∧
    (noaaMergeStep K0 0 0 [testNoaaStation] testNoaaRecord).cdd = some 1 ∧
    (noaaMergeStep K0 0 0 [testNoaaStation] testNoaaRecord).source ≠
      testNoaaRecord.source := by
  have hfind : findNearestNoaaStation K0 (some 0) (some 0) [testNoaaStation] =
      some { station := testNoaaStation, distance_mi := .num 0 } := by
    simp only [findNearestNoaaStation, testNoaaStation, List.foldl, calculateDistance,
      K0, jsub, jneg, jadd, jmul, jdiv, jsSin, jsCos, jsSqrt, jsAtan2, jlt,
      jround, roundQ]
    norm_num
  simp only [testNoaaStation] at hfind
  refine ⟨rfl, rfl, ?_, ?_, ?_⟩ <;>
    simp [noaaMergeStep, testNoaaRecord, testNoaaStation, hfind, jsOrStr]

/-- C3 amended: the stage-2b merge leaves every field other than
`hdd`/`cdd`/`source` unchanged, but whenever a nearest station is found
it copies that station's finite `hdd`/`cdd` over the record's values
unconditionally — present finite fields included — and only keeps the
record's value when the station's one is non-finite.  (The
missing-fields-only guard exists solely in the county backfill
`tryMergeNoaaNormalsHddCdd`.) -/
theorem noaaMergeStep_frame_and_overwrite (K : MathKernel) (lat lon : ℚ)
    (stations : List NoaaDbStation) (r : ClimateRecord) (nr : NearestNoaa)
    (hfind : findNearestNoaaStation K (some lat) (some lon) stations = some nr) :
    ((noaaMergeStep K lat lon stations r).name = r.name ∧
     (noaaMergeStep K lat lon stations r).heating = r.heating ∧
     (noaaMergeStep K lat lon stations r).cooling = r.cooling ∧
     (noaaMergeStep K lat lon stations r).lat = r.lat ∧
     (noaaMergeStep K lat lon stations r).lon = r.lon) ∧
    (∀ q, nr.station.hdd = some q →
      (noaaMergeStep K lat lon stations r).hdd = some q) ∧
    (∀ q, nr.station.cdd = some q →
      (noaaMergeStep K lat lon stations r).cdd = some q) ∧
    (nr.station.hdd = none → (noaaMergeStep K lat lon stations r).hdd = r.hdd) ∧
    (nr.station.cdd = none → (noaaMergeStep K lat lon stations r).cdd = r.cdd) := by
  cases stations with
  | nil => simp [findNearestNoaaStation] at hfind
  | cons s₀ rest =>
    simp only [noaaMergeStep, List.isEmpty_cons, Bool.false_eq_true, if_false, hfind]
    refine ⟨⟨?_, ?_, ?_, ?_, ?_⟩, fun q hq => by simp [hq], fun q hq => by simp [hq],
      fun hq => by simp [hq], fun hq => by simp [hq]⟩ <;> simp

/-- Witness for C3's amended theorem: a station with `hdd = 4321` and no
`cdd` overwrites the record's finite `hdd = 7`. -/
theorem noaaMergeStep_frame_and_overwrite_witness :
    (noaaMergeStep K0 1 1 [testNoaaStation2] testNoaaRecord2).hdd = some 4321 :=
  (noaaMergeStep_frame_and_overwrite K0 1 1 [testNoaaStation2] testNoaaRecord2
      { station := testNoaaStation2, distance_mi := .num 0 }
      (by
        simp only [findNearestNoaaStation, testNoaaStation2, List.foldl,
          calculateDistance, K0, jsub, jneg, jadd, jmul, jdiv, jsSin, jsCos,
          jsSqrt, jsAtan2, jlt, jround, roundQ]
        norm_num)).2.1 4321 rfl

/-! ## C9 -/

/-- C9 counterexample: the great-circle distance utilities themselves
have no finiteness guard — a NaN coordinate yields NaN, not the `null`
sentinel the claim requires of them. -/
theorem calculateDistance_nan_not_sentinel :
    calculateDistance K0 .nan (.num 0) (.num 0) (.num 0) = .nan ∧
    haversine K0 .nan (.num 0) (.num 0) (.num 0) = .nan := by
  constructor <;> with_unfolding_all decide

/-- C9 amended: the nearest-match scan built on the distance utility
(`nearestStation`) returns the sentinel `null` for a non-finite query
coordinate or an empty candidate list and, being total, never throws,
for every kernel interpretation; the raw distance utilities
(`calculateDistance`, `haversine`) propagate a NaN coordinate to a NaN
result instead of a sentinel. -/
theorem nearest_scans_sentinel_and_distance_nan (K : MathKernel) :
    (∀ (lon : Option ℚ) (sts : List NormalsStation),
      nearestStation K none lon sts = none) ∧
    (∀ (lat : Option ℚ) (sts : List NormalsStation),
      nearestStation K lat none sts = none) ∧
    (∀ (lat lon : Option ℚ), nearestStation K lat lon [] = none) ∧
    (∀ (l₂ l₃ l₄ : JSNum), calculateDistance K .nan l₂ l₃ l₄ = .nan) ∧
    (∀ (l₂ l₃ l₄ : JSNum), haversine K .nan l₂ l₃ l₄ = .nan) := by
  refine ⟨?_, ?_, ?_, ?_, ?_⟩
  · intro lon sts; simp [nearestStation]
  · intro lat sts; cases lat <;> simp [nearestStation]
  · intro lat lon; cases lat <;> cases lon <;> simp [nearestStation]
  · intro l₂ l₃ l₄; simp [calculateDistance]
  · intro l₂ l₃ l₄; simp [haversine]

/-! ## C5 -/

set_option maxRecDepth 2000 in
/-- C5: every ZIP found in the in-memory tables with all four numeric
fields finite resolves at stage 1 with zero network calls and the
stage-1 record, for every environment; and the concrete Miami scenario:
ZIP 33101 (heating 48, cooling 89, hdd 200, cdd 3500) resolves offline
against failing collaborators, and the furnace annual cost at 50 000
BTU/hr, AFUE 0.95, $0.12/kWh, $1.20/therm is finite, positive and below
$500 (it is exactly $178). -/
theorem stage1_offline_short_circuit_and_miami_scenario :
    (∀ (env : LookupEnv) (zip : String) (entry : RawEntry),
      zip.length = 5 →
      (env.resnet.lookup zip).orElse (fun _ => LOCAL_RESNET_FALLBACK.lookup zip) =
        some entry →
      entry.heating.isSome → entry.cooling.isSome →
      entry.hdd.isSome → entry.cdd.isSome →
      lookupClimateData env zip = (.success (stage1Normalize zip entry), 0)) ∧
    lookupClimateData stage1TestEnv "33101" =
      (.success (stage1Normalize "33101" miamiZipEntry), 0) ∧
    (∃ c : ℚ, (calculateHVACCosts (stage1Normalize "33101" miamiZipEntry)
        scenarioInputs ⟨50000, 40000⟩).furnace.total = .num c ∧ 0 < c ∧ c < 500) := by
  refine ⟨?_, ?_, ?_⟩
  · intro env zip entry hlen hfound h1 h2 h3 h4
    simp [lookupClimateData, hlen, hfound, h1, h2, h3, h4]
  · simp only [lookupClimateData, stage1TestEnv, List.lookup]
    simp
    rfl
  · exact ⟨178, by with_unfolding_all decide, by norm_num, by norm_num⟩

/-- Witness for C5 applying the stage-1 short-circuit at the Miami
environment. -/
theorem stage1_offline_short_circuit_and_miami_scenario_witness :
    lookupClimateData stage1TestEnv "33101" =
      (.success (stage1Normalize "33101" miamiZipEntry), 0) :=
  stage1_offline_short_circuit_and_miami_scenario.1 stage1TestEnv "33101"
    miamiZipEntry rfl
    (by simp [stage1TestEnv, miamiZipEntry, List.lookup])
    rfl rfl rfl rfl

/-! ## C7 -/

/-- The NOAA backfill's per-entry transform touches only `hdd`/`cdd`,
and only when the existing value is non-finite. -/
theorem noaaFillEntry_fields (K : MathKernel) (sts : List NormalsStation)
    (e : RawEntry) :
    (noaaFillEntry K sts e).heating = e.heating ∧
    (noaaFillEntry K sts e).cooling = e.cooling ∧
    (noaaFillEntry K sts e).name = e.name ∧
    (noaaFillEntry K sts e).state = e.state ∧
    (noaaFillEntry K sts e).source = e.source ∧
    (noaaFillEntry K sts e).lat = e.lat ∧
    (noaaFillEntry K sts e).lon = e.lon ∧
    (∀ q, e.hdd = some q → (noaaFillEntry K sts e).hdd = some q) ∧
    (∀ q, e.cdd = some q → (noaaFillEntry K sts e).cdd = some q) := by
  unfold noaaFillEntry
  dsimp only
  split
  · exact ⟨rfl, rfl, rfl, rfl, rfl, rfl, rfl, fun q hq => hq, fun q hq => hq⟩
  · cases hnear : nearestStation K e.lat e.lon sts with
    | none =>
      simp only [hnear]
      exact ⟨trivial, trivial, trivial, trivial, trivial, trivial, trivial,
        fun q hq => hq, fun q hq => hq⟩
    | some s =>
      simp only [hnear]
      refine ⟨trivial, trivial, trivial, trivial, trivial, trivial, trivial,
        fun q hq => ?_, fun q hq => ?_⟩ <;> simp [hq]

/-- C7: the dataset merges never overwrite an existing county entry or
its already-finite fields.  For a FIPS already present: the external
JSON merge and the external CSV merge return the very same entry
(first-loaded source wins, for every file content and numeric parser),
and the NOAA-normals backfill returns an entry whose fields other than
`hdd`/`cdd` are identical and whose finite `hdd`/`cdd` are untouched. -/
theorem county_merges_preserve_existing_entries
    (K : MathKernel) (parseNum parseFloatQ : String → Option ℚ)
    (idx newIdx : List (String × RawEntry)) (csvText noaaText : String)
    (fips : String) (e : RawEntry)
    (hpresent : idx.lookup fips = some e) :
    (tryLoadExternalCountyJson idx newIdx).lookup fips = some e ∧
    (tryLoadExternalCountyCsv parseNum idx csvText).lookup fips = some e ∧
    (∃ e', (tryMergeNoaaNormalsHddCdd K parseFloatQ idx noaaText).lookup fips =
        some e' ∧
      e'.heating = e.heating ∧ e'.cooling = e.cooling ∧ e'.name = e.name ∧
      e'.state = e.state ∧ e'.source = e.source ∧ e'.lat = e.lat ∧
      e'.lon = e.lon ∧
      (∀ q, e.hdd = some q → e'.hdd = some q) ∧
      (∀ q, e.cdd = some q → e'.cdd = some q)) := by
  refine ⟨?_, ?_, ?_⟩
  · unfold tryLoadExternalCountyJson
    refine foldl_preserves _ (fun acc => acc.lookup fips = some e) ?_ newIdx idx
      hpresent
    intro acc kv h
    split
    · exact lookup_append_of_some _ _ _ _ h
    · exact h
  · unfold tryLoadExternalCountyCsv
    dsimp only
    repeat' split
    all_goals first
      | exact hpresent
      | (refine foldl_preserves _ (fun acc => acc.lookup fips = some e) ?_ _ idx
           hpresent
         intro acc line h
         dsimp only
         split
         · exact h
         · split
           · exact h
           · exact lookup_append_of_some _ _ _ _ h)
  · unfold tryMergeNoaaNormalsHddCdd
    dsimp only
    repeat' split
    all_goals first
      | exact ⟨e, hpresent, rfl, rfl, rfl, rfl, rfl, rfl, rfl, fun q hq => hq,
          fun q hq => hq⟩
      | (rw [lookup_map_snd, hpresent]
         exact ⟨_, rfl, noaaFillEntry_fields _ _ _⟩)

/-- Witness for C7 at a concrete index, merge inputs and trivial
parsers. -/
theorem county_merges_preserve_existing_entries_witness :
    (tryLoadExternalCountyJson [("11111", countyEntry06007)]
      [("11111", countyEntry06089), ("22222", countyEntry06089)]).lookup "11111" =
      some countyEntry06007 :=
  (county_merges_preserve_existing_entries K0 (fun _ => none) (fun _ => none)
    [("11111", countyEntry06007)] [("11111", countyEntry06089), ("22222", countyEntry06089)]
    "" "" "11111" countyEntry06007 (by simp [List.lookup])).1

/-! ## C8 -/

/-- `Math.round` is monotone. -/
theorem roundQ_mono {a b : ℚ} (h : a ≤ b) : roundQ a ≤ roundQ b := by
  unfold roundQ
  exact_mod_cast Int.floor_le_floor (by linarith)

/-- `Math.round` as a monotone map. -/
theorem roundQ_monotone : Monotone roundQ := fun _ _ h => roundQ_mono h

/-- Furnace-branch evaluation on finite inputs. -/
theorem calcSys_furnace_total (copArg cdd cool xov : JSNum) (a d h e g : ℚ)
    (hh : h ≠ 65) (ha : a ≠ 0) (loads : HouseLoads) :
    (calculateSystemCosts .furnace ⟨copArg, .num a⟩ (.num d) cdd (.num h) cool
      (.num e) (.num g) xov loads).total =
    .num (roundQ (jsOrDefault loads.heating 50000 / (65 - h) * d * 24 /
      (100000 * a) * g + 0)) := by
  have h65 : ¬((65:ℚ) - h = 0) := fun hc => hh (by linarith)
  have h1e5 : ¬((100000:ℚ) * a = 0) := fun hc => ha (by
    rcases mul_eq_zero.mp hc with h' | h'
    · norm_num at h'
    · exact h')
  simp [calculateSystemCosts, jsub, jneg, jadd, jmul, jdiv, jround,
    ← sub_eq_add_neg, h65, h1e5]

/-- Heat-pump-branch evaluation on finite inputs. -/
theorem calcSys_heatPump_total (afueArg cdd cool xov : JSNum) (cp d h e g : ℚ)
    (hh : h ≠ 65) (hcp : cp ≠ 0) (loads : HouseLoads) :
    (calculateSystemCosts .heatPump ⟨.num cp, afueArg⟩ (.num d) cdd (.num h) cool
      (.num e) (.num g) xov loads).total =
    .num (roundQ (jsOrDefault loads.heating 50000 / (65 - h) * d * 24 /
      (cp * 3412) * e + 0)) := by
  have h65 : ¬((65:ℚ) - h = 0) := fun hc => hh (by linarith)
  have h3412 : ¬(cp * (3412:ℚ) = 0) := fun hc => hcp (by
    rcases mul_eq_zero.mp hc with h' | h'
    · exact h'
    · norm_num at h')
  simp [calculateSystemCosts, jsub, jneg, jadd, jmul, jdiv, jround,
    ← sub_eq_add_neg, h65, h3412]

/-- Hybrid-branch evaluation on finite inputs, in terms of the step
share `p`. -/
theorem calcSys_hybrid_total (cdd cool : JSNum) (cp a d h e g x p : ℚ)
    (hh : h ≠ 65) (hcp : cp ≠ 0) (ha : a ≠ 0)
    (hp : hybridHeatPumpPercentage (.num h) (.num x) = .num p)
    (loads : HouseLoads) :
    (calculateSystemCosts .hybrid ⟨.num cp, .num a⟩ (.num d) cdd (.num h) cool
      (.num e) (.num g) (.num x) loads).total =
    .num (roundQ (jsOrDefault loads.heating 50000 / (65 - h) * d * 24 * p /
        (cp * 3412) * e +
      jsOrDefault loads.heating 50000 / (65 - h) * d * 24 * (1 - p) /
        (100000 * a) * g + 0)) := by
  have h65 : ¬((65:ℚ) - h = 0) := fun hc => hh (by linarith)
  have h3412 : ¬(cp * (3412:ℚ) = 0) := fun hc => hcp (by
    rcases mul_eq_zero.mp hc with h' | h'
    · exact h'
    · norm_num at h')
  have h1e5 : ¬((100000:ℚ) * a = 0) := fun hc => ha (by
    rcases mul_eq_zero.mp hc with h' | h'
    · norm_num at h'
    · exact h')
  simp [calculateSystemCosts, hp, jsub, jneg, jadd, jmul, jdiv, jround,
    ← sub_eq_add_neg, h65, h3412, h1e5]

/-- C8: for finite valid inputs (design temperature below 65, positive
COP and AFUE) with the hybrid branch's heat-pump share strictly between
0 and 1, the hybrid system's total annual cost lies between the
heat-pump system's and the furnace system's totals (inclusive), with the
specs objects built exactly as `calculateHVACCosts` builds them. -/
theorem hybrid_total_between_furnace_and_heatPump
    (cdd cool : JSNum) (loads : HouseLoads) (cp a d h e g x p : ℚ)
    (hdesign : h < 65) (hcp : 0 < cp) (ha : 0 < a)
    (hp : hybridHeatPumpPercentage (.num h) (.num x) = .num p)
    (hp0 : 0 < p) (hp1 : p < 1) :
    ∃ tf th ty : ℚ,
      (calculateSystemCosts .furnace ⟨.nan, .num a⟩ (.num d) cdd (.num h) cool
        (.num e) (.num g) (.num x) loads).total = .num tf ∧
      (calculateSystemCosts .heatPump ⟨.num cp, .nan⟩ (.num d) cdd (.num h) cool
        (.num e) (.num g) (.num x) loads).total = .num th ∧
      (calculateSystemCosts .hybrid ⟨.num cp, .num a⟩ (.num d) cdd (.num h) cool
        (.num e) (.num g) (.num x) loads).total = .num ty ∧
      min tf th ≤ ty ∧ ty ≤ max tf th := by
  have hh : h ≠ 65 := ne_of_lt hdesign
  set A : ℚ := jsOrDefault loads.heating 50000 / (65 - h) * d * 24 with hA
  set F : ℚ := A / (100000 * a) * g with hF
  set H : ℚ := A / (cp * 3412) * e with hH
  have hmid : A * p / (cp * 3412) * e + A * (1 - p) / (100000 * a) * g =
      p * H + (1 - p) * F := by
    rw [hH, hF]
    ring
  have hbound1 : min F H ≤ p * H + (1 - p) * F := by
    have b1 : p * min F H ≤ p * H :=
      mul_le_mul_of_nonneg_left (min_le_right F H) hp0.le
    have b2 : (1 - p) * min F H ≤ (1 - p) * F :=
      mul_le_mul_of_nonneg_left (min_le_left F H) (by linarith)
    have b3 : p * min F H + (1 - p) * min F H = min F H := by ring
    linarith
  have hbound2 : p * H + (1 - p) * F ≤ max F H := by
    have b1 : p * H ≤ p * max F H :=
      mul_le_mul_of_nonneg_left (le_max_right F H) hp0.le
    have b2 : (1 - p) * F ≤ (1 - p) * max F H :=
      mul_le_mul_of_nonneg_left (le_max_left F H) (by linarith)
    have b3 : p * max F H + (1 - p) * max F H = max F H := by ring
    linarith
  refine ⟨roundQ (F + 0), roundQ (H + 0),
    roundQ (A * p / (cp * 3412) * e + A * (1 - p) / (100000 * a) * g + 0),
    ?_, ?_, ?_, ?_, ?_⟩
  · rw [calcSys_furnace_total _ _ _ _ a d h e g hh (ne_of_gt ha) loads, hF, hA]
  · rw [calcSys_heatPump_total _ _ _ _ cp d h e g hh (ne_of_gt hcp) loads, hH, hA]
  · rw [calcSys_hybrid_total _ _ cp a d h e g x p hh (ne_of_gt hcp)
      (ne_of_gt ha) hp loads, hA]
  · calc min (roundQ (F + 0)) (roundQ (H + 0))
        = roundQ (min (F + 0) (H + 0)) := (roundQ_monotone.map_min).symm
      _ ≤ roundQ (A * p / (cp * 3412) * e + A * (1 - p) / (100000 * a) * g + 0) := by
          apply roundQ_mono
          simp only [add_zero]
          rw [hmid]
          exact hbound1
  · calc roundQ (A * p / (cp * 3412) * e + A * (1 - p) / (100000 * a) * g + 0)
        ≤ roundQ (max (F + 0) (H + 0)) := by
          apply roundQ_mono
          simp only [add_zero]
          rw [hmid]
          exact hbound2
      _ = max (roundQ (F + 0)) (roundQ (H + 0)) := roundQ_monotone.map_max

/-- Witness for C8 at design 5 °F, crossover 35 °F (step share 0.3),
hdd 7000, AFUE 0.95, COP 3.5, $0.12/kWh, $1.20/therm. -/
theorem hybrid_total_between_furnace_and_heatPump_witness :
    ∃ tf th ty : ℚ,
      (calculateSystemCosts .furnace ⟨.nan, .num (19/20)⟩ (.num 7000) (.num 0)
        (.num 5) (.num 0) (.num (3/25)) (.num (6/5)) (.num 35)
        ⟨50000, 40000⟩).total = .num tf ∧
      (calculateSystemCosts .heatPump ⟨.num (7/2), .nan⟩ (.num 7000) (.num 0)
        (.num 5) (.num 0) (.num (3/25)) (.num (6/5)) (.num 35)
        ⟨50000, 40000⟩).total = .num th ∧
      (calculateSystemCosts .hybrid ⟨.num (7/2), .num (19/20)⟩ (.num 7000)
        (.num 0) (.num 5) (.num 0) (.num (3/25)) (.num (6/5)) (.num 35)
        ⟨50000, 40000⟩).total = .num ty ∧
      min tf th ≤ ty ∧ ty ≤ max tf th :=
  hybrid_total_between_furnace_and_heatPump (.num 0) (.num 0) ⟨50000, 40000⟩
    (7/2) (19/20) 7000 5 (3/25) (6/5) 35 (3/10)
    (by norm_num) (by norm_num) (by norm_num)
    (by with_unfolding_all decide) (by norm_num) (by norm_num)
